import Mathlib

/-!
Verification of the rate-limiting subsystem of the AS112 blackhole DNS
server (`ratelimit/as112.go`).

The Go code is shallowly embedded as follows:
* `net.Addr` becomes the inductive `Addr`: a `*net.UDPAddr` or `*net.TCPAddr`
  carries its IP byte string and port; every other implementation of the
  `net.Addr` interface is collapsed into the `other` constructor (the code
  never inspects anything but the dynamic type and the IP bytes).
* `time.Time` / `time.Duration` become `Nat` nanosecond counts on a single
  monotone clock; `time.Second` is `10^9` ns.  `time.Since(s)` at clock `now`
  is `now - s` (truncated subtraction; a stamp is never in the future of the
  clock that wrote it, and truncation at zero selects the same branch Go's
  negative duration would).  `uint(d.Seconds())` for the durations reachable
  in the decay branch is exactly `d / 10^9` in naturals: the float64 rounding
  of `d/1e9` never crosses an integer because the gap to the nearest integer
  is at least `1e-9`, far above a half-ulp.
* Go `int` fields (`rate`, `count`) become `Int`; realistic traffic never
  approaches `2^63`, so two's-complement wraparound is not modelled.
  Go's arithmetic right shift `>>` on `int` is floor division by a power of
  two, i.e. `Int.fdiv x (2 ^ k)`.
* `hash/adler32.Checksum` is implemented from its specification (RFC 1950):
  `a` starts at 1, `b` at 0; per byte `a += byte`, `b += a`, both mod 65521;
  the checksum is `b * 2^16 + a`.  Taking the modulus per byte is
  extensionally equal to Go's deferred-modulus loop.
* The single goroutine `blockerUpdate` is a step function on an explicit
  actor state.  Crucially, the Go variable `offset` is declared *outside*
  the receive loop, so its value persists from one request to the next; the
  actor state therefore carries `offset` alongside the bucket table.
* The bucket table `[BUCKETSIZE]*bucket` becomes `Nat → Option Bucket`
  (`none` = nil pointer), mutated with `Function.update`.
* The buffered channel `make(chan *request, 10000)` becomes a `List Request`
  bounded by `CHANCAP`; a Go send on a full buffered channel does not
  complete until a receive frees a slot, which `chanSend` renders as `none`
  (sender blocked), while a send on a non-full channel appends and returns.
* `*dns.Msg` is an opaque payload `Msg`; the rate limiter never reads it.
-/

namespace AS112

/-- Constants from the Go source: `WINDOW = 5`, `BUCKETSIZE = 10000`,
`LIMIT = 50`. -/
def WINDOW : Nat := 5

def BUCKETSIZE : Nat := 10000

def LIMIT : Int := 50

/-- One second, in nanoseconds (`time.Second`). -/
def second : Nat := 1000000000

/-- A `net.Addr` as the rate limiter sees it: a UDP or TCP address carrying
IP bytes and a port, or any other `net.Addr` implementation. -/
inductive Addr where
  | udp (ip : List Nat) (port : Nat)
  | tcp (ip : List Nat) (port : Nat)
  | other (tag : String)
  deriving DecidableEq, Repr

/-- Opaque stand-in for `*dns.Msg`; the limiter never inspects it. -/
structure Msg where
  payload : List Nat
  deriving DecidableEq, Repr

/-- The Adler-32 modulus. -/
def ADLERMOD : Nat := 65521

/-- One byte of the Adler-32 state update. -/
def adler32Step (s : Nat × Nat) (c : Nat) : Nat × Nat :=
  ((s.1 + c) % ADLERMOD, (s.2 + s.1 + c) % ADLERMOD)

/-- `adler32.Checksum` over a byte string. -/
def adler32 (data : List Nat) : Nat :=
  let s := data.foldl adler32Step (1, 0)
  s.2 * 65536 + s.1

/-- The Go `bucket` struct. -/
structure Bucket where
  source : Addr
  stamp : Nat
  rate : Int
  count : Int
  deriving DecidableEq, Repr

/-- The Go `request` struct sent over the update channel. -/
structure Request where
  a : Addr
  q : Msg
  r : Msg
  deriving DecidableEq, Repr

/-- The bucket table `[BUCKETSIZE]*bucket`: `none` is a nil slot. -/
def Table : Type := Nat → Option Bucket

/-- The persistent local state of the `blockerUpdate` goroutine: the bucket
table plus the `offset` variable, which is declared outside the receive loop
and hence keeps its value between requests. -/
structure ActorState where
  offset : Nat
  table : Table

/-- The initial actor state: `offset := 0`, all slots nil. -/
def initState : ActorState :=
  { offset := 0, table := fun _ => none }

/-- The slot an address hashes to, when the type assertions recognize it:
`adler32.Checksum(t.IP) % BUCKETSIZE` for UDP and TCP, `none` otherwise. -/
def hashAddr : Addr → Option Nat
  | Addr.udp ip _ => some (adler32 ip % BUCKETSIZE)
  | Addr.tcp ip _ => some (adler32 ip % BUCKETSIZE)
  | Addr.other _ => none

/-- The slot used by one iteration of `blockerUpdate`: the address's hash
slot if the address is UDP or TCP, otherwise the stale `offset` left by the
previous iteration. -/
def slotForUpdate (s : ActorState) (a : Addr) : Nat :=
  (hashAddr a).getD s.offset

/-- Go's arithmetic right shift on `int`: floor division by `2 ^ k`. -/
def goShr (x : Int) (k : Nat) : Int :=
  Int.fdiv x (2 ^ k)

/-- One iteration of the `blockerUpdate` receive loop, handling request
`req` with the clock reading `now`.  Mirrors the Go branch structure:
nil slot → fresh bucket `{r.a, now, 0, 1}`; elapsed below one second →
bump `count`, set `rate = count`; elapsed above `WINDOW` seconds → reset
`rate = 0`, `count = 1`; otherwise decay `rate` by the whole elapsed
seconds and add `count`. -/
def blockerUpdate1 (s : ActorState) (req : Request) (now : Nat) : ActorState :=
  let offset := slotForUpdate s req.a
  match s.table offset with
  | none =>
      { offset := offset
        table := Function.update s.table offset
          (some { source := req.a, stamp := now, rate := 0, count := 1 }) }
  | some b =>
      if now - b.stamp < second then
        { offset := offset
          table := Function.update s.table offset
            (some { source := b.source, stamp := now
                    rate := b.count + 1, count := b.count + 1 }) }
      else if WINDOW * second < now - b.stamp then
        { offset := offset
          table := Function.update s.table offset
            (some { source := b.source, stamp := now, rate := 0, count := 1 }) }
      else
        { offset := offset
          table := Function.update s.table offset
            (some { source := b.source, stamp := now
                    rate := goShr b.rate ((now - b.stamp) / second) + b.count
                    count := 1 }) }

/-- The slot `Block` reads: `offset` is a fresh local initialized to `0`,
so an unrecognized address reads slot 0. -/
def blockSlot (a : Addr) : Nat :=
  (hashAddr a).getD 0

/-- The decision function `blocker.Block`: nil slot → `0` (allow); bucket
with `rate > LIMIT` → `-1` (block); otherwise `0`.  The query argument is
accepted and ignored, as in the Go code. -/
def Block (t : Table) (a : Addr) (_q : Msg) : Int :=
  match t (blockSlot a) with
  | none => 0
  | some b => if LIMIT < b.rate then -1 else 0

/-- Capacity of the update channel (`make(chan *request, 10000)`). -/
def CHANCAP : Nat := 10000

/-- A send on a buffered Go channel: if a buffer slot is free the value is
appended and the sender continues (`some`); on a full buffer the sender
blocks until a receiver frees a slot — it neither returns nor discards the
value — rendered as `none`. -/
def chanSend (ch : List Request) (req : Request) : Option (List Request) :=
  if ch.length < CHANCAP then some (ch ++ [req]) else none

/-- `blocker.Count`: `b.ch <- &request{a, q, r}`, a plain (blocking) send
of the request on the update channel. -/
def Count (ch : List Request) (a : Addr) (q r : Msg) : Option (List Request) :=
  chanSend ch { a := a, q := q, r := r }

/-- States of the update actor reachable from `initState` by processing
requests at nondecreasing-or-arbitrary clock readings. -/
inductive Reachable : ActorState → Prop where
  | init : Reachable initState
  | step {s : ActorState} (req : Request) (now : Nat) :
      Reachable s → Reachable (blockerUpdate1 s req now)

/-- Whether the type assertions in the Go code recognize the address
(a `*net.UDPAddr` or a `*net.TCPAddr`). -/
def isRecognized : Addr → Bool
  | Addr.udp _ _ => true
  | Addr.tcp _ _ => true
  | Addr.other _ => false

/-- An empty message, used for concrete scenarios. -/
def msg0 : Msg := { payload := [] }

/-- The actor state after `n` updates for the UDP client `ip:port`, all
observed at the same clock reading `t`, starting from the initial state. -/
def burstState (ip : List Nat) (port : Nat) (q r : Msg) (t : Nat) (n : Nat) :
    ActorState :=
  (fun s => blockerUpdate1 s { a := Addr.udp ip port, q := q, r := r } t)^[n]
    initState

/-- A UDP client whose IP hashes to slot 0:
`adler32 [0, 24, 247] = 19530000`, and `19530000 % 10000 = 0`. -/
def addrSlot0 : Addr := Addr.udp [0, 24, 247] 9

/-- A reachable state in which slot 0 holds a bucket with rate 52 > LIMIT:
the slot-0 client sends 52 requests within one second. -/
def floodSlot0 : ActorState := burstState [0, 24, 247] 9 msg0 msg0 1000 52

/-- State after one update for UDP client `[1]:1` (slot 1074). -/
def afterIp1 : ActorState :=
  blockerUpdate1 initState { a := Addr.udp [1] 1, q := msg0, r := msg0 } 0

/-- State after one update for UDP client `[2]:1` (slot 6611). -/
def afterIp2 : ActorState :=
  blockerUpdate1 initState { a := Addr.udp [2] 1, q := msg0, r := msg0 } 0

/-- State after an update for UDP client `[1]:1` followed by an update for
UDP client `[1]:2` — a distinct address (different port) hashing to the same
slot 1074, applied while the slot is occupied. -/
def afterIp1Ip2 : ActorState :=
  blockerUpdate1 afterIp1 { a := Addr.udp [1] 2, q := msg0, r := msg0 } 0

/-- A full update channel: `CHANCAP` queued requests. -/
def fullChan : List Request :=
  List.replicate CHANCAP { a := Addr.udp [1] 1, q := msg0, r := msg0 }

/-- All occupied slots carry a non-negative rate and a positive count. -/
def rateInv (s : ActorState) : Prop :=
  ∀ i b, s.table i = some b → 0 ≤ b.rate ∧ 1 ≤ b.count

/-- Witness fixture: an actor state whose stale offset points at slot 7 and
whose table holds the given bucket there, so that a request from an
unrecognized address is applied to slot 7. -/
def wState (b : Bucket) : ActorState :=
  { offset := 7, table := Function.update (fun _ => none) 7 (some b) }

/-- Witness fixture: a request from an unrecognized address type. -/
def wReqOther : Request := { a := Addr.other "stream", q := msg0, r := msg0 }

/-- Witness fixture: a bucket freshly written by an in-window update. -/
def wBucketFast : Bucket :=
  { source := Addr.udp [3] 3, stamp := 0, rate := 1, count := 1 }

/-- Witness fixture: a bucket with stale history. -/
def wBucketIdle : Bucket :=
  { source := Addr.udp [3] 3, stamp := 0, rate := 99, count := 7 }

/-- Witness fixture: a bucket about to be decayed. -/
def wBucketDecay : Bucket :=
  { source := Addr.udp [3] 3, stamp := 0, rate := 8, count := 3 }

/-- Witness fixture: a table whose slot for IP `[1,2,3,4]` holds rate 51. -/
def wTableC1 : Table :=
  Function.update (fun _ => none) (adler32 [1, 2, 3, 4] % BUCKETSIZE)
    (some { source := Addr.udp [1, 2, 3, 4] 5353, stamp := 0
            rate := 51, count := 51 })

/-! Helper lemmas: the four branches of one `blockerUpdate` iteration. -/

theorem slotForUpdate_udp (s : ActorState) (ip : List Nat) (port : Nat) :
    slotForUpdate s (Addr.udp ip port) = adler32 ip % BUCKETSIZE := rfl

theorem update_empty (s : ActorState) (req : Request) (now : Nat)
    (h : s.table (slotForUpdate s req.a) = none) :
    blockerUpdate1 s req now =
      { offset := slotForUpdate s req.a
        table := Function.update s.table (slotForUpdate s req.a)
          (some { source := req.a, stamp := now, rate := 0, count := 1 }) } := by
  simp only [blockerUpdate1, h]

theorem update_fast (s : ActorState) (req : Request) (now : Nat) (b : Bucket)
    (hb : s.table (slotForUpdate s req.a) = some b)
    (h1 : now - b.stamp < second) :
    blockerUpdate1 s req now =
      { offset := slotForUpdate s req.a
        table := Function.update s.table (slotForUpdate s req.a)
          (some { source := b.source, stamp := now
                  rate := b.count + 1, count := b.count + 1 }) } := by
  simp only [blockerUpdate1, hb]
  rw [if_pos h1]

theorem update_idle (s : ActorState) (req : Request) (now : Nat) (b : Bucket)
    (hb : s.table (slotForUpdate s req.a) = some b)
    (h2 : WINDOW * second < now - b.stamp) :
    blockerUpdate1 s req now =
      { offset := slotForUpdate s req.a
        table := Function.update s.table (slotForUpdate s req.a)
          (some { source := b.source, stamp := now, rate := 0, count := 1 }) } := by
  have h1 : ¬ now - b.stamp < second := by
    have hws : second ≤ WINDOW * second := by
      show second ≤ 5 * second
      omega
    omega
  simp only [blockerUpdate1, hb]
  rw [if_neg h1, if_pos h2]

theorem update_decay (s : ActorState) (req : Request) (now : Nat) (b : Bucket)
    (hb : s.table (slotForUpdate s req.a) = some b)
    (h1 : second ≤ now - b.stamp)
    (h2 : now - b.stamp ≤ WINDOW * second) :
    blockerUpdate1 s req now =
      { offset := slotForUpdate s req.a
        table := Function.update s.table (slotForUpdate s req.a)
          (some { source := b.source, stamp := now
                  rate := goShr b.rate ((now - b.stamp) / second) + b.count
                  count := 1 }) } := by
  simp only [blockerUpdate1, hb]
  rw [if_neg (by omega), if_neg (by omega)]

theorem burstState_succ (ip : List Nat) (port : Nat) (q r : Msg) (t n : Nat) :
    burstState ip port q r t (n + 1)
      = blockerUpdate1 (burstState ip port q r t n)
          { a := Addr.udp ip port, q := q, r := r } t := by
  unfold burstState
  exact Function.iterate_succ_apply' _ _ _

/-- Closed form of a same-instant burst: after `n + 2` updates for the same
UDP client at one clock reading `t`, the client's slot holds the bucket
`(addr, t, n + 2, n + 2)` and no other slot was touched. -/
theorem burstState_table (ip : List Nat) (port : Nat) (q r : Msg) (t : Nat) :
    ∀ n, (burstState ip port q r t (n + 2)).table
      = Function.update (fun _ => none) (adler32 ip % BUCKETSIZE)
          (some { source := Addr.udp ip port, stamp := t
                  rate := (n : Int) + 2, count := (n : Int) + 2 }) := by
  intro n
  induction n with
  | zero =>
      have e1 : burstState ip port q r t 1
          = { offset := adler32 ip % BUCKETSIZE
              table := Function.update (fun _ => none) (adler32 ip % BUCKETSIZE)
                (some { source := Addr.udp ip port, stamp := t
                        rate := 0, count := 1 }) } := by
        rw [show (1 : Nat) = 0 + 1 from rfl, burstState_succ]
        rw [update_empty _ _ t rfl]
        rfl
      rw [show (0 + 2 : Nat) = 1 + 1 from rfl, burstState_succ]
      rw [update_fast _ _ t { source := Addr.udp ip port, stamp := t, rate := 0, count := 1 }
        (by rw [e1]; simp [slotForUpdate_udp]) (by norm_num [second])]
      rw [e1]
      simp only [slotForUpdate_udp, Function.update_idem]
      norm_num
  | succ m ih =>
      rw [show (m + 1 + 2 : Nat) = m + 2 + 1 from rfl, burstState_succ]
      rw [update_fast _ _ t ⟨Addr.udp ip port, t, (m : Int) + 2, (m : Int) + 2⟩
        (by simp only [slotForUpdate_udp, ih, Function.update_same]) (by norm_num [second])]
      have ecast : ((m : Int) + 2) + 1 = ((m + 1 : Nat) : Int) + 2 := by
        push_cast
        ring
      rw [ih]
      simp only [slotForUpdate_udp, Function.update_idem, ecast]

theorem reachable_burstState (ip : List Nat) (port : Nat) (q r : Msg)
    (t : Nat) (n : Nat) : Reachable (burstState ip port q r t n) := by
  induction n with
  | zero => exact Reachable.init
  | succ m ih =>
      rw [burstState_succ]
      exact Reachable.step _ _ ih

/-- Each update step writes exactly one slot, and the bucket it writes has a
non-negative rate and positive count provided the table already satisfied
the invariant. -/
theorem step_table_char (s : ActorState) (req : Request) (now : Nat)
    (hinv : rateInv s) :
    ∃ nb : Bucket, (blockerUpdate1 s req now).table
        = Function.update s.table (slotForUpdate s req.a) (some nb)
      ∧ 0 ≤ nb.rate ∧ 1 ≤ nb.count := by
  rcases hsk : s.table (slotForUpdate s req.a) with _ | b
  · refine ⟨{ source := req.a, stamp := now, rate := 0, count := 1 },
      by rw [update_empty s req now hsk], ?_, ?_⟩ <;> norm_num
  · obtain ⟨hr, hc⟩ := hinv _ b hsk
    by_cases h1 : now - b.stamp < second
    · refine ⟨⟨b.source, now, b.count + 1, b.count + 1⟩,
        by rw [update_fast s req now b hsk h1], ?_, ?_⟩
      · show 0 ≤ b.count + 1
        omega
      · show 1 ≤ b.count + 1
        omega
    · by_cases h2 : WINDOW * second < now - b.stamp
      · refine ⟨{ source := b.source, stamp := now, rate := 0, count := 1 },
          by rw [update_idle s req now b hsk h2], ?_, ?_⟩ <;> norm_num
      · refine ⟨⟨b.source, now, goShr b.rate ((now - b.stamp) / second) + b.count, 1⟩,
          by rw [update_decay s req now b hsk (by omega) (by omega)], ?_, ?_⟩
        · show 0 ≤ goShr b.rate ((now - b.stamp) / second) + b.count
          have hf : 0 ≤ goShr b.rate ((now - b.stamp) / second) :=
            Int.fdiv_nonneg hr (by positivity)
          omega
        · show (1 : Int) ≤ 1
          norm_num

theorem rateInv_step (s : ActorState) (req : Request) (now : Nat)
    (hinv : rateInv s) : rateInv (blockerUpdate1 s req now) := by
  obtain ⟨nb, htab, hr, hc⟩ := step_table_char s req now hinv
  intro i b hib
  rw [htab] at hib
  by_cases hik : i = slotForUpdate s req.a
  · subst hik
    rw [Function.update_same] at hib
    cases hib
    exact ⟨hr, hc⟩
  · rw [Function.update_noteq hik] at hib
    exact hinv i b hib

theorem reachable_rateInv {s : ActorState} (hs : Reachable s) : rateInv s := by
  induction hs with
  | init => intro i b hib; simp [initState] at hib
  | step req now _ ih => exact rateInv_step _ req now ih

theorem Block_none (t : Table) (a : Addr) (q : Msg)
    (h : t (blockSlot a) = none) : Block t a q = 0 := by
  unfold Block
  rw [h]

theorem Block_some (t : Table) (a : Addr) (q : Msg) (b : Bucket)
    (h : t (blockSlot a) = some b) :
    Block t a q = if LIMIT < b.rate then -1 else 0 := by
  unfold Block
  rw [h]

/-- C2: an update applied to an occupied slot whose elapsed time since the
stamp is strictly below one second increments `count` by exactly one,
refreshes the stamp to the current time, and sets `rate` to the new
`count`; hence `count` strictly rises on every such call, and when the
bucket was itself written by an in-window update (so `rate = count`) the
observed `rate` strictly rises as well — repeated in-window `Count` calls
raise both monotonically. -/
theorem claimC2 (s : ActorState) (req : Request) (now : Nat) (b : Bucket)
    (hb : s.table (slotForUpdate s req.a) = some b)
    (hfast : now - b.stamp < second) :
    (blockerUpdate1 s req now).table (slotForUpdate s req.a)
        = some ⟨b.source, now, b.count + 1, b.count + 1⟩
    ∧ b.count < b.count + 1
    ∧ (b.rate = b.count → b.rate < b.count + 1) := by
  refine ⟨?_, by omega, fun h => by omega⟩
  rw [update_fast s req now b hb hfast]
  simp [Function.update_same]

/-- Witness for C2: a bucket with count 1 at slot 7 updated 0 ns later. -/
theorem claimC2_wit :
    (blockerUpdate1 (wState wBucketFast) wReqOther 0).table 7
      = some ⟨Addr.udp [3] 3, 0, 2, 2⟩ :=
  (claimC2 (wState wBucketFast) wReqOther 0 wBucketFast rfl
    (by norm_num [wBucketFast, second])).1

/-- C3: an update applied to an occupied slot whose elapsed time exceeds
`WINDOW` seconds resets `rate` to 0, `count` to 1 and the stamp to the
current time — the closed form depends on neither the old `rate` nor the
old `count`, so no memory of earlier bursts survives. -/
theorem claimC3 (s : ActorState) (req : Request) (now : Nat) (b : Bucket)
    (hb : s.table (slotForUpdate s req.a) = some b)
    (hidle : WINDOW * second < now - b.stamp) :
    (blockerUpdate1 s req now).table (slotForUpdate s req.a)
      = some ⟨b.source, now, 0, 1⟩ := by
  rw [update_idle s req now b hb hidle]
  simp [Function.update_same]

/-- Witness for C3: a bucket with rate 99 idle for 6 seconds. -/
theorem claimC3_wit :
    (blockerUpdate1 (wState wBucketIdle) wReqOther (6 * second)).table 7
      = some ⟨Addr.udp [3] 3, 6 * second, 0, 1⟩ :=
  claimC3 (wState wBucketIdle) wReqOther (6 * second) wBucketIdle rfl
    (by norm_num [wBucketIdle, WINDOW, second])

/-- C4: an update applied to an occupied slot with elapsed time between one
second and `WINDOW` seconds inclusive right-shifts `rate` by the number of
whole elapsed seconds, adds the current `count`, then resets `count` to 1
and the stamp to the current time. -/
theorem claimC4 (s : ActorState) (req : Request) (now : Nat) (b : Bucket)
    (hb : s.table (slotForUpdate s req.a) = some b)
    (h1 : second ≤ now - b.stamp) (h2 : now - b.stamp ≤ WINDOW * second) :
    (blockerUpdate1 s req now).table (slotForUpdate s req.a)
      = some ⟨b.source, now, goShr b.rate ((now - b.stamp) / second) + b.count, 1⟩ := by
  rw [update_decay s req now b hb h1 h2]
  simp [Function.update_same]

/-- Witness for C4: rate 8, count 3, two seconds elapsed: 8 >> 2 + 3 = 5. -/
theorem claimC4_wit :
    (blockerUpdate1 (wState wBucketDecay) wReqOther (2 * second)).table 7
      = some ⟨Addr.udp [3] 3, 2 * second, 5, 1⟩ :=
  claimC4 (wState wBucketDecay) wReqOther (2 * second) wBucketDecay rfl
    (by norm_num [wBucketDecay, second])
    (by norm_num [wBucketDecay, WINDOW, second])

/-- C10: the state produced by one update depends only on the request's
address and the observation time — the query and response messages are
never inspected, so two requests differing only in their messages produce
identical actor states. -/
theorem claimC10 (s : ActorState) (a : Addr) (q1 r1 q2 r2 : Msg) (now : Nat) :
    blockerUpdate1 s ⟨a, q1, r1⟩ now = blockerUpdate1 s ⟨a, q2, r2⟩ now := rfl

/-- C1: for a recognized (UDP or TCP) client address, `Block` returns 0
when the address's slot is empty, -1 when the slot's rate strictly exceeds
`LIMIT`, and 0 otherwise; moreover 52 requests from one UDP client within
the same second drive its rate to 52 > LIMIT and `Block` reports -1, and a
subsequent request after a 6-second idle gap (> WINDOW) resets the rate to
0 ≤ LIMIT, after which `Block` reports 0 again. -/
theorem claimC1 (t : Table) (a : Addr) (q : Msg) (_hrec : isRecognized a = true) :
    ((t (blockSlot a) = none → Block t a q = 0)
      ∧ (∀ b, t (blockSlot a) = some b → LIMIT < b.rate → Block t a q = -1)
      ∧ (∀ b, t (blockSlot a) = some b → b.rate ≤ LIMIT → Block t a q = 0))
    ∧ (∀ (ip : List Nat) (port : Nat) (qm rm : Msg) (tm : Nat),
        Block (burstState ip port qm rm tm 52).table (Addr.udp ip port) qm = -1
        ∧ Block (blockerUpdate1 (burstState ip port qm rm tm 52)
              ⟨Addr.udp ip port, qm, rm⟩ (tm + 6 * second)).table
            (Addr.udp ip port) qm = 0) := by
  refine ⟨⟨fun h => Block_none t a q h, fun b hb hr => ?_, fun b hb hr => ?_⟩, ?_⟩
  · rw [Block_some t a q b hb, if_pos hr]
  · rw [Block_some t a q b hb, if_neg (not_lt.mpr hr)]
  · intro ip port qm rm tm
    have e52 : (burstState ip port qm rm tm 52).table
        = Function.update (fun _ => none) (adler32 ip % BUCKETSIZE)
            (some ⟨Addr.udp ip port, tm, 52, 52⟩) :=
      burstState_table ip port qm rm tm 50
    have hb52 : (burstState ip port qm rm tm 52).table
        (slotForUpdate (burstState ip port qm rm tm 52) (Addr.udp ip port))
        = some ⟨Addr.udp ip port, tm, 52, 52⟩ := by
      rw [slotForUpdate_udp, e52]
      exact Function.update_same _ _ _
    constructor
    · rw [Block_some _ _ qm ⟨Addr.udp ip port, tm, 52, 52⟩
        (by rw [show blockSlot (Addr.udp ip port) = adler32 ip % BUCKETSIZE from rfl, e52]
            exact Function.update_same _ _ _)]
      norm_num [LIMIT]
    · rw [update_idle _ ⟨Addr.udp ip port, qm, rm⟩ (tm + 6 * second) _ hb52
        (by show WINDOW * second < tm + 6 * second - tm
            simp only [WINDOW, second]
            omega)]
      unfold Block
      rw [show blockSlot (Addr.udp ip port) = adler32 ip % BUCKETSIZE from rfl]
      simp only [slotForUpdate_udp, Function.update_same]
      norm_num [LIMIT]

/-- Witness for C1: a UDP client whose slot holds rate 51 > LIMIT = 50 is
told to block. -/
theorem claimC1_wit : Block wTableC1 (Addr.udp [1, 2, 3, 4] 5353) msg0 = -1 :=
  (claimC1 wTableC1 (Addr.udp [1, 2, 3, 4] 5353) msg0 rfl).1.2.1
    ⟨Addr.udp [1, 2, 3, 4] 5353, 0, 51, 51⟩
    (Function.update_same _ _ _) (by norm_num [LIMIT])

/-- C9: in every reachable state of the update actor, every occupied slot's
rate is non-negative; the invariant is preserved by all four update-step
branches (initialization, in-window increment, idle reset, decay), and by
construction of the embedding the table is written by `blockerUpdate1`
alone — `Block` is a pure read and `Count` only queues a request. -/
theorem claimC9 (s : ActorState) (hs : Reachable s) (i : Nat) (b : Bucket)
    (hib : s.table i = some b) : 0 ≤ b.rate :=
  (reachable_rateInv hs i b hib).1

/-- Witness for C9: the bucket created by the first update has rate 0. -/
theorem claimC9_wit : 0 ≤ (Bucket.mk (Addr.other "stream") 0 0 1).rate :=
  claimC9 (blockerUpdate1 initState wReqOther 0)
    (Reachable.step wReqOther 0 Reachable.init) 0
    (Bucket.mk (Addr.other "stream") 0 0 1) rfl

/-- C5 counterexample: `Block` does not treat an unrecognized address as
"no rate data".  Its local `offset` stays 0, so it reads slot 0; in the
reachable state where the UDP client `[0,24,247]` (whose IP hashes to
slot 0) has flooded 52 requests in one second, `Block` answers -1 (block)
for an unrecognized address instead of the claimed 0 (allow). -/
theorem claimC5_cex :
    Reachable floodSlot0
    ∧ Block floodSlot0.table (Addr.other "stream") msg0 = -1 := by
  constructor
  · exact reachable_burstState [0, 24, 247] 9 msg0 msg0 1000 52
  · have e : floodSlot0.table
        = Function.update (fun _ => none) 0 (some ⟨addrSlot0, 1000, 52, 52⟩) := by
      have e0 : floodSlot0.table
          = Function.update (fun _ => none) (adler32 [0, 24, 247] % BUCKETSIZE)
              (some ⟨addrSlot0, 1000, 52, 52⟩) :=
        burstState_table [0, 24, 247] 9 msg0 msg0 1000 50
      rw [e0, show adler32 [0, 24, 247] % BUCKETSIZE = 0 by decide]
    have hb : floodSlot0.table (blockSlot (Addr.other "stream"))
        = some ⟨addrSlot0, 1000, 52, 52⟩ := by
      rw [e]
      exact Function.update_same _ _ _
    rw [Block_some _ _ msg0 _ hb]
    norm_num [LIMIT]

/-- C5 amended: `Block` treats an unrecognized address type as hashing to
slot 0 (its zero-initialized local offset): it returns allow exactly when
slot 0 is empty or slot 0's bucket has rate at most LIMIT, and block
exactly when slot 0's bucket has rate above LIMIT — it does not
unconditionally allow. -/
theorem claimC5_amend (t : Table) (tag : String) (q : Msg) :
    (Block t (Addr.other tag) q = 0
      ↔ (t 0 = none ∨ ∃ b, t 0 = some b ∧ b.rate ≤ LIMIT))
    ∧ (Block t (Addr.other tag) q = -1
      ↔ ∃ b, t 0 = some b ∧ LIMIT < b.rate) := by
  rcases ht : t 0 with _ | b
  · rw [Block_none t (Addr.other tag) q ht]
    refine ⟨⟨fun _ => Or.inl rfl, fun _ => rfl⟩, ⟨fun h => absurd h (by norm_num), ?_⟩⟩
    rintro ⟨b', hb', _⟩
    cases hb'
  · rw [Block_some t (Addr.other tag) q b ht]
    by_cases hr : LIMIT < b.rate
    · rw [if_pos hr]
      refine ⟨⟨fun h => absurd h (by norm_num), ?_⟩, ⟨fun _ => ⟨b, rfl, hr⟩, fun _ => rfl⟩⟩
      rintro (h | ⟨b', hb', hr'⟩)
      · cases h
      · injection hb' with hbb
        subst hbb
        exact absurd hr (not_lt.mpr hr')
    · rw [if_neg hr]
      refine ⟨⟨fun _ => Or.inr ⟨b, rfl, not_lt.mp hr⟩, fun _ => rfl⟩,
        ⟨fun h => absurd h (by norm_num), ?_⟩⟩
      rintro ⟨b', hb', hr'⟩
      injection hb' with hbb
      subst hbb
      exact absurd hr' hr

/-- C6 counterexample: with the 10000-request update queue full, the
channel send inside `Count` cannot complete — in the embedding `chanSend`
yields `none`, i.e. the caller is left waiting for a receiver — rather
than discarding the update and returning (which would yield
`some fullChan`). -/
theorem claimC6_cex : Count fullChan (Addr.udp [1] 1) msg0 msg0 = none := by
  have hlen : fullChan.length = CHANCAP := List.length_replicate CHANCAP _
  unfold Count chanSend
  rw [if_neg (by rw [hlen]; exact lt_irrefl CHANCAP)]

/-- C6 amended: `Count` never discards an update: while a queue slot is
free it appends the request and returns to the caller; when the queue is
full the blocking send does not complete until the update actor frees a
slot.  No error is ever returned. -/
theorem claimC6_amend (ch : List Request) (a : Addr) (q r : Msg) :
    (ch.length < CHANCAP → Count ch a q r = some (ch ++ [⟨a, q, r⟩]))
    ∧ (CHANCAP ≤ ch.length → Count ch a q r = none) := by
  constructor
  · intro h
    unfold Count chanSend
    rw [if_pos h]
  · intro h
    unfold Count chanSend
    rw [if_neg (by omega)]

/-- Witness for the amended C6: an empty queue accepts the update. -/
theorem claimC6_wit :
    Count [] (Addr.udp [1] 1) msg0 msg0 = some [⟨Addr.udp [1] 1, msg0, msg0⟩] :=
  (claimC6_amend [] (Addr.udp [1] 1) msg0 msg0).1 (by norm_num [CHANCAP])

/-- C7 counterexample: in the update path the `offset` variable persists
across loop iterations, so the slot chosen for an unrecognized address is
the previous request's slot, not a function of the address: after a
request from IP `[1]` the same unrecognized address lands in slot 1074,
but after a request from IP `[2]` it lands in slot 6611. -/
theorem claimC7_cex :
    Reachable afterIp1 ∧ Reachable afterIp2
    ∧ slotForUpdate afterIp1 (Addr.other "stream") = 1074
    ∧ slotForUpdate afterIp2 (Addr.other "stream") = 6611 := by
  refine ⟨Reachable.step { a := Addr.udp [1] 1, q := msg0, r := msg0 } 0 Reachable.init,
    Reachable.step { a := Addr.udp [2] 1, q := msg0, r := msg0 } 0 Reachable.init,
    by decide, by decide⟩

/-- C7 amended: for UDP and TCP addresses the slot is the deterministic
pure function `adler32 ip % BUCKETSIZE` of the IP bytes alone, identical
in the update and decision paths and independent of the actor state; for
an unrecognized address the decision path always reads slot 0 while the
update path reuses whatever slot the previously processed request used. -/
theorem claimC7_amend (ip : List Nat) (port : Nat) (s sx : ActorState)
    (tag : String) :
    slotForUpdate s (Addr.udp ip port) = adler32 ip % BUCKETSIZE
    ∧ slotForUpdate s (Addr.tcp ip port) = adler32 ip % BUCKETSIZE
    ∧ blockSlot (Addr.udp ip port) = adler32 ip % BUCKETSIZE
    ∧ blockSlot (Addr.tcp ip port) = adler32 ip % BUCKETSIZE
    ∧ slotForUpdate s (Addr.udp ip port) = slotForUpdate sx (Addr.udp ip port)
    ∧ slotForUpdate s (Addr.other tag) = s.offset
    ∧ blockSlot (Addr.other tag) = 0 :=
  ⟨rfl, rfl, rfl, rfl, rfl, rfl, rfl⟩

/-- C8 counterexample: after client `[1]:1` creates the bucket in slot 1074
and the distinct client `[1]:2` (same IP, different port, same slot)
applies an update to the occupied slot, the slot's recorded source is still
`[1]:1` — not the address of the last writer as claimed: no update branch
for an occupied slot ever writes the `source` field. -/
theorem claimC8_cex :
    Reachable afterIp1Ip2
    ∧ afterIp1Ip2.table 1074 = some ⟨Addr.udp [1] 1, 0, 2, 2⟩ := by
  constructor
  · exact Reachable.step { a := Addr.udp [1] 2, q := msg0, r := msg0 } 0
      (Reachable.step { a := Addr.udp [1] 1, q := msg0, r := msg0 } 0 Reachable.init)
  · have e1 : afterIp1
        = { offset := adler32 [1] % BUCKETSIZE
            table := Function.update (fun _ => none) (adler32 [1] % BUCKETSIZE)
              (some ⟨Addr.udp [1] 1, 0, 0, 1⟩) } :=
      update_empty initState { a := Addr.udp [1] 1, q := msg0, r := msg0 } 0 rfl
    have hb : afterIp1.table (slotForUpdate afterIp1 (Addr.udp [1] 2))
        = some ⟨Addr.udp [1] 1, 0, 0, 1⟩ := by
      rw [slotForUpdate_udp, e1]
      simp [Function.update_same]
    have e2 : afterIp1Ip2
        = { offset := adler32 [1] % BUCKETSIZE
            table := Function.update afterIp1.table (adler32 [1] % BUCKETSIZE)
              (some ⟨Addr.udp [1] 1, 0, 2, 2⟩) } :=
      update_fast afterIp1 { a := Addr.udp [1] 2, q := msg0, r := msg0 } 0
        ⟨Addr.udp [1] 1, 0, 0, 1⟩ hb (by norm_num [second])
    rw [e2, show adler32 [1] % BUCKETSIZE = 1074 by decide]
    simp [Function.update_same]

/-- C8 amended: `source` records the client whose update created the
bucket: an update applied to an empty slot writes the updater's address
into `source`, but an update applied to an occupied slot leaves `source`
unchanged, even when the updater's address differs from the occupant's. -/
theorem claimC8_amend (s : ActorState) (req : Request) (now : Nat) :
    (s.table (slotForUpdate s req.a) = none →
      Option.map Bucket.source
          ((blockerUpdate1 s req now).table (slotForUpdate s req.a))
        = some req.a)
    ∧ (∀ b, s.table (slotForUpdate s req.a) = some b →
      Option.map Bucket.source
          ((blockerUpdate1 s req now).table (slotForUpdate s req.a))
        = some b.source) := by
  constructor
  · intro h
    rw [update_empty s req now h]
    simp [Function.update_same]
  · intro b hb
    by_cases h1 : now - b.stamp < second
    · rw [update_fast s req now b hb h1]
      simp [Function.update_same]
    · by_cases h2 : WINDOW * second < now - b.stamp
      · rw [update_idle s req now b hb h2]
        simp [Function.update_same]
      · rw [update_decay s req now b hb (by omega) (by omega)]
        simp [Function.update_same]

/-- Witness for the amended C8: the first update for an unrecognized
address creates slot 0's bucket with that address as source. -/
theorem claimC8_wit :
    Option.map Bucket.source ((blockerUpdate1 initState wReqOther 0).table 0)
      = some (Addr.other "stream") :=
  (claimC8_amend initState wReqOther 0).1 rfl

end AS112
